import Mathlib

set_option maxRecDepth 8000

/-!
Shallow embedding of the batch classification pipeline of
`scripts/gradio_test.py` (Keyword-Ninja): model registry scan,
the Ollama free-text adapter `query_ollama`, the batch loop of
`analyze_batch`, and the CSV export path naming.

External engines (HuggingFace pipelines, the `ollama` subprocess) are
black boxes; they are modelled as oracle parameters.  Python strings are
modelled by Lean `String`, Python `float` scores by `ℚ`, and a Python
exception escaping a call by `Except.error` carrying the message.
-/

namespace KeywordNinja

/-! ### Python string primitives, at the character-list level -/

/-- Characters Python `str.strip()` removes (ASCII whitespace). -/
def wsChar (c : Char) : Bool :=
  c = ' ' || c = '\t' || c = '\n' || c = '\r' || c = '\x0b' || c = '\x0c'

/-- Python `s.strip()`: drop leading and trailing whitespace. -/
def pyStrip (s : String) : String :=
  String.mk (((s.data.dropWhile wsChar).reverse.dropWhile wsChar).reverse)

/-- Python `s.lower()` (ASCII case folding, as used on the label strings). -/
def pyLower (s : String) : String :=
  String.mk (s.data.map Char.toLower)

/-- First list occurs at the head of the second list (contiguous). -/
def chPre : List Char → List Char → Bool
  | [], _ => true
  | _ :: _, [] => false
  | a :: as, b :: bs => a = b && chPre as bs

/-- Needle occurs contiguously somewhere in the haystack. -/
def chSub : List Char → List Char → Bool
  | [], n => chPre n []
  | h@(_ :: t), n => chPre n h || chSub t n

/-- Python `needle in haystack`: contiguous-substring containment. -/
def hasSub (haystack needle : String) : Bool :=
  chSub haystack.data needle.data

/-- Python `s.split(",")`: split on every comma, keeping empty pieces;
always yields at least one piece. -/
def splitCommaAux : List Char → List Char → List String
  | [], acc => [String.mk acc.reverse]
  | c :: cs, acc =>
      if c = ',' then String.mk acc.reverse :: splitCommaAux cs []
      else splitCommaAux cs (c :: acc)

def pySplitComma (s : String) : List String := splitCommaAux s.data []

/-- Python `s.strip().split()[0] if s.strip() else ""`: the first
whitespace-delimited token of `s`, or `""` when `s` is all whitespace
(source line 120 of `gradio_test.py`). -/
def firstTok (s : String) : String :=
  if pyStrip s = "" then ""
  else String.mk ((pyStrip s).data.takeWhile (fun c => !wsChar c))

/-- Python `round(x, 3)` on exact rationals: round-half-to-even of
`x * 1000`, divided by 1000. -/
def roundHalfEven (x : ℚ) : ℤ :=
  if x - Rat.floor x < 1/2 then Rat.floor x
  else if x - Rat.floor x > 1/2 then Rat.floor x + 1
  else if Rat.floor x % 2 = 0 then Rat.floor x else Rat.floor x + 1

def pyRound3 (x : ℚ) : ℚ := (roundHalfEven (x * 1000) : ℚ) / 1000

/-! ### `query_ollama` (gradio_test.py lines 93-132)

The `subprocess.run` call is external: its outcome is either a
completed process (stdout text and return code) or a raised exception
(`TimeoutExpired` included) carrying a message.  The body's
`try`/`except Exception` catches every exception, including the
`IndexError` that `labels[0]` raises on an empty label list. -/

inductive SubOutcome where
  | completed (stdout : String) (returncode : Int)
  | raised (msg : String)
deriving DecidableEq

structure OllamaResult where
  label : String
  raw_response : String
deriving DecidableEq

/-- The `for label in labels: if ... : best_label = label; break` loop
(lines 125-128): first label matching the lowered response, if any. -/
def pickLabel (respLower : String) : List String → Option String
  | [] => none
  | l :: ls =>
      if hasSub respLower (pyLower l) || hasSub (pyLower l) respLower then some l
      else pickLabel respLower ls

/-- Body of `query_ollama` after the subprocess call: on a raised exception the
handler returns label `"Error"` with the message; otherwise the first
token of stdout is matched against the labels, defaulting to
`labels[0]` (which itself raises `IndexError`, caught by the same
handler, when `labels` is empty). -/
def query_ollama (outcome : SubOutcome) (labels : List String) : OllamaResult :=
  match outcome with
  | .raised msg => ⟨"Error", msg⟩
  | .completed stdout _ =>
      match labels with
      | [] => ⟨"Error", "list index out of range"⟩
      | l0 :: _ =>
          let response := firstTok stdout
          let respLower := pyLower response
          ⟨(pickLabel respLower labels).getD l0, response⟩

/-! ### Label parsing (gradio_test.py lines 163-166 and 231-234,
identical in `analyze_text` and `analyze_batch`) -/

def parseLabels (custom_labels : String) : List String :=
  if pyStrip custom_labels ≠ "" then (pySplitComma custom_labels).map pyStrip
  else ["Commercial", "Informational", "Navigational", "Transactional"]

/-! ### Model registry (gradio_test.py lines 21-70)

The directory scan is external I/O: it is modelled by the list of
qualifying local entries (subfolders of `models/` holding a
`config.json`), each carrying the folder name and the optional
`_name_or_path` field read from that file. -/

structure LocalEntry where
  folder : String
  name_or_path : Option String
deriving DecidableEq

structure ModelDesc where
  name : String
  path : String
  mtype : String
deriving DecidableEq

/-- Lines 34-47: zero-shot keyword heuristic over the lowered folder
name and the lowered `_name_or_path` config field (missing field read
as `""`). -/
def infer_model_type (folder : String) (name_or_path : Option String) : String :=
  let nop := pyLower (name_or_path.getD "")
  let fl := pyLower folder
  if hasSub fl "logic" || hasSub fl "bart" || hasSub fl "deberta" ||
     hasSub nop "mnli" || hasSub nop "bart" || hasSub nop "facebook" ||
     hasSub nop "nli" then "zero-shot-classification"
  else "text-classification"

def qwenDesc : ModelDesc :=
  ⟨"qwen2.5_agent (Ollama)", "qwen2.5:7b-instruct", "ollama-llm"⟩

def fallbackDescs : List ModelDesc :=
  [⟨"intent_agent (Hugging Face)", "Falconsai/intent_classification", "text-classification"⟩,
   ⟨"logic_agent (Hugging Face)", "facebook/bart-large-mnli", "zero-shot-classification"⟩]

/-- Function `get_available_models`: map the scan, always append the Ollama
descriptor, then (line 64) fall back on the hardcoded remote pair when
the accumulated list is empty. -/
def get_available_models (localEntries : List LocalEntry) : List ModelDesc :=
  let models := localEntries.map fun e =>
    ⟨e.folder, "models/" ++ e.folder, infer_model_type e.folder e.name_or_path⟩
  let models := models ++ [qwenDesc]
  if models.isEmpty then fallbackDescs else models

/-! ### `analyze_batch` (gradio_test.py lines 205-295)

The three per-item classification calls go to external engines,
modelled as oracles keyed by the item text.  A HuggingFace pipeline
call that raises is an `Except.error`: inside the batch loop nothing
catches it, so it propagates to the whole-batch `except` handler
(line 293), which returns an error message and no records. -/

structure ZSOut where
  labels : List String
  scores : List ℚ
deriving DecidableEq

structure TCEntry where
  label : String
  score : ℚ
deriving DecidableEq

structure Engines where
  oll : String → SubOutcome
  zs : String → List String → Except String ZSOut
  tc : String → Except String (List TCEntry)

inductive MType where
  | ollama | zeroShot | textClass
deriving DecidableEq

/-- One row of `results_csv` (lines 268-276): keyword, best label,
rounded confidence, and the `score_<label>` columns.  The Python
`all_scores` dict is modelled as the association list it is built
from; its key set is the image of the first components. -/
structure CsvRow where
  keyword : String
  best_label : String
  confidence : ℚ
  scores : List (String × ℚ)
deriving DecidableEq

/-- Loop body for one retained item (lines 247-276). -/
def classifyItem (mt : MType) (eng : Engines) (labels : List String)
    (text : String) : Except String CsvRow :=
  match mt with
  | .ollama =>
      let r := query_ollama (eng.oll text) labels
      .ok ⟨text, r.label, pyRound3 1, [(r.label, pyRound3 1)]⟩
  | .zeroShot =>
      match eng.zs text labels with
      | .error e => .error e
      | .ok r =>
          match r.labels, r.scores with
          | bl :: _, bs :: _ =>
              .ok ⟨text, bl, pyRound3 bs,
                   (r.labels.zip r.scores).map fun p => (p.1, pyRound3 p.2)⟩
          | _, _ => .error "list index out of range"
  | .textClass =>
      match eng.tc text with
      | .error e => .error e
      | .ok [] => .error "list index out of range"
      | .ok (r0 :: rs) =>
          .ok ⟨text, r0.label, pyRound3 r0.score,
               (r0 :: rs).map fun r => (r.label, pyRound3 r.score)⟩

/-- The `for text in texts` loop (lines 243-276): blank items are
skipped, a raised engine exception aborts the whole batch. -/
def batchLoop (mt : MType) (eng : Engines) (labels : List String) :
    List String → Except String (List CsvRow)
  | [] => .ok []
  | t :: ts =>
      if pyStrip t = "" then batchLoop mt eng labels ts
      else
        match classifyItem mt eng labels t with
        | .error e => .error e
        | .ok row =>
            match batchLoop mt eng labels ts with
            | .error e => .error e
            | .ok rows => .ok (row :: rows)

/-- Line 219 (TXT branch): `[line.strip() for line in f.readlines()[:100]]`. -/
def readTxtItems (lines : List String) : List String :=
  (lines.take 100).map pyStrip

/-- Line 216 (CSV branch): `df.iloc[:, 0].tolist()[:100]`. -/
def readCsvItems (col : List String) : List String :=
  col.take 100

/-- Function `analyze_batch` on a TXT upload, from the file's lines to
the record list handed to the exporter. -/
def analyze_batch_txt (mt : MType) (eng : Engines) (custom_labels : String)
    (lines : List String) : Except String (List CsvRow) :=
  batchLoop mt eng (parseLabels custom_labels) (readTxtItems lines)

/-- Function `analyze_batch` on a CSV upload (first column). -/
def analyze_batch_csv (mt : MType) (eng : Engines) (custom_labels : String)
    (col : List String) : Except String (List CsvRow) :=
  batchLoop mt eng (parseLabels custom_labels) (readCsvItems col)

/-- Record count of a batch outcome (`none` when the batch aborted). -/
def batchLen (r : Except String (List CsvRow)) : Option Nat :=
  match r with
  | .ok rows => some rows.length
  | .error _ => none

/-- Keywords of a batch outcome, in order. -/
def batchKeywords (r : Except String (List CsvRow)) : Option (List String) :=
  match r with
  | .ok rows => some (rows.map CsvRow.keyword)
  | .error _ => none

/-- Error message of an aborted batch (`none` when the batch returned
records). -/
def batchErr (r : Except String (List CsvRow)) : Option String :=
  match r with
  | .ok _ => none
  | .error e => some e

/-! ### CSV export path (gradio_test.py lines 279-281)

`timestamp = int(time.time()); csv_path = f"data/ai_results_{timestamp}.csv"`.
`time.time()` is external: an export call is modelled by its call
identity together with the integer timestamp observed at lines 279-280.
The decimal rendering of the timestamp is spelled out via `Nat.digits`. -/

def natDecimalChars (n : Nat) : List Char :=
  if n = 0 then ['0'] else ((Nat.digits 10 n).map Nat.digitChar).reverse

structure ExportCall where
  callId : Nat
  timestamp : Nat
deriving DecidableEq

def csvPathOf (c : ExportCall) : String :=
  "data/ai_results_" ++ String.mk (natDecimalChars c.timestamp) ++ ".csv"

/-! ### Spec-side definitions, for refinement claims -/

/-- Modelled from the spec's words for the FreeTextLLM tie-break: the
first candidate whose lowercase form is a substring of, or contains,
the lowercase first whitespace-delimited token; default first
candidate. -/
def specChoose (tok : String) (labels : List String) : String :=
  match labels.find? (fun l =>
      hasSub (pyLower tok) (pyLower l) || hasSub (pyLower l) (pyLower tok)) with
  | some l => l
  | none => labels.headD ""

/-- Modelled from the spec's words for the kind heuristic: the zero-shot
signal condition of claim C9. -/
def zeroShotSignal (folder : String) (name_or_path : Option String) : Prop :=
  hasSub (pyLower folder) "logic" = true ∨
  hasSub (pyLower folder) "bart" = true ∨
  hasSub (pyLower folder) "deberta" = true ∨
  hasSub (pyLower (name_or_path.getD "")) "mnli" = true ∨
  hasSub (pyLower (name_or_path.getD "")) "bart" = true ∨
  hasSub (pyLower (name_or_path.getD "")) "facebook" = true ∨
  hasSub (pyLower (name_or_path.getD "")) "nli" = true

/-! ### Concrete engines and inputs used in counterexamples and witnesses -/

/-- Engines whose zero-shot oracle fails only on the item `"b"`. -/
def engC1 : Engines :=
  ⟨fun _ => SubOutcome.raised "unused",
   fun t _ => if t = "b" then Except.error "boom" else Except.ok ⟨["X"], [1]⟩,
   fun _ => Except.error "unused"⟩

/-- Engines whose Ollama subprocess raises only on the item `"bad"`. -/
def engC1w : Engines :=
  ⟨fun t => if t = "bad" then SubOutcome.raised "timeout" else SubOutcome.completed "Commercial" 0,
   fun _ _ => Except.error "unused",
   fun _ => Except.error "unused"⟩

/-- Engines whose Ollama subprocess always completes with empty stdout. -/
def engBlank : Engines :=
  ⟨fun _ => SubOutcome.completed "" 0,
   fun _ _ => Except.error "unused",
   fun _ => Except.error "unused"⟩

/-- Zero-shot engines that always answer with the fixed result `r`. -/
def mkZsEngines (r : ZSOut) : Engines :=
  ⟨fun _ => SubOutcome.raised "unused",
   fun _ _ => Except.ok r,
   fun _ => Except.error "unused"⟩

/-- Key set of the `score_<label>` columns of one classified row. -/
def rowKeys (e : Except String CsvRow) : Option (Finset String) :=
  match e with
  | .ok row => some (row.scores.map Prod.fst).toFinset
  | .error _ => none

/-- Row built for one Ollama item (lines 249-276): label and scores
from `query_ollama`, confidence fixed at `round(1.0, 3)`. -/
def ollamaRow (eng : Engines) (labels : List String) (t : String) : CsvRow :=
  let r := query_ollama (eng.oll t) labels
  ⟨t, r.label, pyRound3 1, [(r.label, pyRound3 1)]⟩

/-- Input of the C2 counterexample: 5 blank lines then 100 non-blank. -/
def linesC2 : List String := List.replicate 5 "" ++ List.replicate 100 "kw"

/-- Input of the C4 witness: 250 non-blank lines. -/
def lines250 : List String := List.replicate 250 "kw"

/-! ## Supporting lemmas -/

lemma allWs_dropWhile_iff (p : Char → Bool) (l : List Char) :
    (∀ x ∈ l.dropWhile p, p x = true) ↔ ∀ x ∈ l, p x = true := by
  constructor
  · intro h x hx
    rw [← List.takeWhile_append_dropWhile (p := p) (l := l)] at hx
    rcases List.mem_append.mp hx with h1 | h2
    · exact List.mem_takeWhile_imp h1
    · exact h x h2
  · intro h x hx
    exact h x ((List.dropWhile_sublist p).subset hx)

lemma pyStrip_eq_empty_iff (s : String) :
    pyStrip s = "" ↔ ∀ c ∈ s.data, wsChar c = true := by
  unfold pyStrip
  rw [String.ext_iff,
      show ("" : String).data = ([] : List Char) from rfl,
      show (String.mk ((s.data.dropWhile wsChar).reverse.dropWhile wsChar).reverse).data
        = ((s.data.dropWhile wsChar).reverse.dropWhile wsChar).reverse from rfl,
      List.reverse_eq_nil_iff, List.dropWhile_eq_nil_iff]
  constructor
  · intro h
    rw [← allWs_dropWhile_iff wsChar s.data]
    intro x hx
    exact h x (List.mem_reverse.mpr hx)
  · intro h x hx
    exact (allWs_dropWhile_iff wsChar s.data).mpr h x (List.mem_reverse.mp hx)

lemma mem_pyStrip {s : String} {c : Char} (hc : c ∈ (pyStrip s).data) :
    c ∈ s.data := by
  unfold pyStrip at hc
  have h1 : c ∈ (s.data.dropWhile wsChar).reverse.dropWhile wsChar :=
    List.mem_reverse.mp hc
  have h2 := (List.dropWhile_sublist wsChar).subset h1
  exact (List.dropWhile_sublist wsChar).subset (List.mem_reverse.mp h2)

lemma ws_of_all_stripped (s : String)
    (h : ∀ c ∈ (pyStrip s).data, wsChar c = true) :
    ∀ c ∈ s.data, wsChar c = true := by
  intro c hc
  rw [← List.takeWhile_append_dropWhile (p := wsChar) (l := s.data)] at hc
  rcases List.mem_append.mp hc with h1 | h2
  · exact List.mem_takeWhile_imp h1
  · have hr : c ∈ (s.data.dropWhile wsChar).reverse := List.mem_reverse.mpr h2
    rw [← List.takeWhile_append_dropWhile (p := wsChar)
      (l := (s.data.dropWhile wsChar).reverse)] at hr
    rcases List.mem_append.mp hr with h3 | h4
    · exact List.mem_takeWhile_imp h3
    · exact h c (List.mem_reverse.mpr h4)

lemma pyStrip_strip_empty_iff (s : String) :
    pyStrip (pyStrip s) = "" ↔ pyStrip s = "" := by
  rw [pyStrip_eq_empty_iff, pyStrip_eq_empty_iff]
  exact ⟨fun h => ws_of_all_stripped s h, fun h c hc => h c (mem_pyStrip hc)⟩

lemma batchLoop_length_le (mt : MType) (eng : Engines) (labels : List String) :
    ∀ texts rows, batchLoop mt eng labels texts = .ok rows →
      rows.length ≤ texts.length := by
  intro texts
  induction texts with
  | nil =>
      intro rows h
      simp only [batchLoop] at h
      injection h with h
      simp [← h]
  | cons t ts ih =>
      intro rows h
      by_cases hb : pyStrip t = ""
      · simp only [batchLoop, hb, if_true] at h
        exact Nat.le_succ_of_le (ih rows h)
      · simp only [batchLoop, hb, if_false] at h
        cases hc : classifyItem mt eng labels t with
        | error e => rw [hc] at h; simp at h
        | ok row =>
            rw [hc] at h
            cases hr : batchLoop mt eng labels ts with
            | error e => rw [hr] at h; simp at h
            | ok rows' =>
                rw [hr] at h
                injection h with h
                have := ih rows' hr
                simp [← h]
                omega

lemma batchLoop_ollama (eng : Engines) (labels : List String) :
    ∀ texts, batchLoop .ollama eng labels texts =
      .ok ((texts.filter fun t => pyStrip t ≠ "").map (ollamaRow eng labels))
  | [] => rfl
  | t :: ts => by
      by_cases hb : pyStrip t = ""
      · simp [batchLoop, hb, batchLoop_ollama eng labels ts, List.filter_cons]
      · simp [batchLoop, hb, batchLoop_ollama eng labels ts, List.filter_cons,
          classifyItem, ollamaRow]

lemma splitCommaAux_ne_nil : ∀ (cs acc : List Char), splitCommaAux cs acc ≠ []
  | [], _ => by simp [splitCommaAux]
  | c :: cs, acc => by
      by_cases h : c = ','
      · simp [splitCommaAux, h]
      · simpa [splitCommaAux, h] using splitCommaAux_ne_nil cs (c :: acc)

lemma pickLabel_eq_find? (respLower : String) : ∀ ls : List String,
    pickLabel respLower ls =
      ls.find? fun l => hasSub respLower (pyLower l) || hasSub (pyLower l) respLower
  | [] => rfl
  | l :: ls => by
      rw [List.find?_cons]
      by_cases h : (hasSub respLower (pyLower l) || hasSub (pyLower l) respLower) = true
      · simp [pickLabel, h]
      · simp [pickLabel, h, pickLabel_eq_find? respLower ls]

/-! ## Claim theorems -/

/-- C10: for every `custom_labels` string (the empty string falling back
to the four default labels), the parsed candidate-label list of
`analyze_text`/`analyze_batch` is non-empty, so the FreeTextLLM default
selection `labels[0]` in `query_ollama` never indexes an empty list. -/
theorem C10_parsed_labels_nonempty (custom_labels : String) :
    parseLabels custom_labels ≠ [] := by
  unfold parseLabels
  split
  · simpa [pySplitComma] using splitCommaAux_ne_nil custom_labels.data []
  · simp

/-- C10 witness: the empty string parses to the four default labels. -/
theorem C10_witness :
    parseLabels "" ≠ [] ∧ parseLabels "" =
      ["Commercial", "Informational", "Navigational", "Transactional"] :=
  ⟨C10_parsed_labels_nonempty "", by decide⟩

/-- C9: a scanned model folder is classified as zero-shot
(`LabelSet`) exactly when the lowercase folder name contains
"logic", "bart" or "deberta", or the lowercase `_name_or_path` field
contains "mnli", "bart", "facebook" or "nli"; otherwise it is
classified as text-classification (`SingleLabel`). -/
theorem C9_kind_heuristic (folder : String) (name_or_path : Option String) :
    (infer_model_type folder name_or_path = "zero-shot-classification" ↔
      zeroShotSignal folder name_or_path) ∧
    (infer_model_type folder name_or_path = "text-classification" ↔
      ¬ zeroShotSignal folder name_or_path) := by
  simp only [infer_model_type, zeroShotSignal]
  split <;> rename_i h <;> simp only [Bool.or_eq_true] at h <;>
    constructor <;> constructor <;> intro h2 <;> tauto

/-- C3 counterexample: the external process exiting non-zero (code 1,
empty stdout) does not yield an "Error" result — the output is parsed
normally and the first candidate label is returned. -/
theorem C3_counterexample :
    (query_ollama (SubOutcome.completed "" 1) ["Commercial"]).label ≠ "Error" := by
  decide

/-- C3 amended: `query_ollama` returns the "Error" label carrying the
failure message exactly when the invocation raises (timeout included),
and never raises to its caller; a non-zero exit status is not detected:
the result is independent of the return code and stdout is parsed as on
success. -/
theorem C3_error_containment :
    (∀ msg labels, query_ollama (SubOutcome.raised msg) labels =
      ⟨"Error", msg⟩) ∧
    (∀ stdout code code' labels,
      query_ollama (SubOutcome.completed stdout code) labels =
        query_ollama (SubOutcome.completed stdout code') labels) :=
  ⟨fun _ _ => rfl, fun _ _ _ _ => rfl⟩

/-- C5: with zero local entries the registry returns only the
unconditionally appended Ollama descriptor; the hardcoded remote
fallback pair is unreachable because the emptiness test runs after
that append, contradicting the code's own "Fallback if no local models
found" comment. -/
theorem C5_fallback_unreachable :
    get_available_models [] = [qwenDesc] ∧ qwenDesc ∉ fallbackDescs := by
  constructor
  · rfl
  · decide

/-- C6: on a completed invocation with a non-empty candidate list, the
chosen label is the first candidate whose lowercase form is a substring
of, or contains, the lowercase first whitespace-delimited token of the
response, defaulting to the first candidate; the raw payload is that
token. -/
theorem C6_tie_break (stdout : String) (code : Int) (labels : List String)
    (h : labels ≠ []) :
    query_ollama (SubOutcome.completed stdout code) labels =
      ⟨specChoose (firstTok stdout) labels, firstTok stdout⟩ := by
  match labels, h with
  | l0 :: ls, _ =>
    have hred : query_ollama (SubOutcome.completed stdout code) (l0 :: ls) =
        ⟨(pickLabel (pyLower (firstTok stdout)) (l0 :: ls)).getD l0,
         firstTok stdout⟩ := rfl
    rw [hred, pickLabel_eq_find?]
    unfold specChoose
    cases hf : List.find?
        (fun l => hasSub (pyLower (firstTok stdout)) (pyLower l) ||
          hasSub (pyLower l) (pyLower (firstTok stdout))) (l0 :: ls) <;>
      simp [hf]

/-- C6 witness: token "Informational" picks the matching second
candidate over the default first. -/
theorem C6_witness :
    query_ollama (SubOutcome.completed " Informational x" 0)
        ["Commercial", "Informational"] =
      ⟨"Informational", "Informational"⟩ := by
  rw [C6_tie_break _ _ _ (by decide)]
  decide

/-- C7 counterexample: two distinct export calls made within the same
integer second produce identical destination paths, so one overwrites
the other. -/
theorem C7_counterexample :
    (⟨0, 1700000000⟩ : ExportCall) ≠ ⟨1, 1700000000⟩ ∧
    csvPathOf ⟨0, 1700000000⟩ = csvPathOf ⟨1, 1700000000⟩ :=
  ⟨by decide, rfl⟩

/-- C1 counterexample: on the HuggingFace zero-shot path, an engine
exception on the second of three retained items aborts the whole batch
— the run yields the error, not one record per retained item. -/
theorem C1_counterexample :
    batchErr (analyze_batch_txt .zeroShot engC1 "" ["a", "b", "c"]) = some "boom" ∧
    batchLen (analyze_batch_txt .zeroShot engC1 "" ["a", "b", "c"]) = none := by
  decide

/-- C1 amended: only the FreeTextLLM (Ollama) path contains the
per-item failure boundary: there the batch always returns exactly one
record per retained (non-blank) item, in input order, and an item whose
invocation raises is recorded with the label "Error". -/
theorem C1_ollama_error_containment (eng : Engines) (custom_labels : String)
    (lines : List String) :
    analyze_batch_txt .ollama eng custom_labels lines =
      .ok (((readTxtItems lines).filter fun t => pyStrip t ≠ "").map
        (ollamaRow eng (parseLabels custom_labels))) ∧
    ∀ t msg, eng.oll t = .raised msg →
      (ollamaRow eng (parseLabels custom_labels) t).best_label = "Error" := by
  constructor
  · exact batchLoop_ollama eng (parseLabels custom_labels) (readTxtItems lines)
  · intro t msg h
    simp [ollamaRow, query_ollama, h]

/-- C1 witness: with an engine raising only on item "bad", the batch of
lines ["ok", " ", "bad"] still returns records, and the "bad" record is
labeled "Error". -/
theorem C1_witness :
    batchLen (analyze_batch_txt .ollama engC1w "" ["ok", " ", "bad"]) = some 2 ∧
    (ollamaRow engC1w (parseLabels "") "bad").best_label = "Error" := by
  constructor
  · rw [(C1_ollama_error_containment engC1w "" ["ok", " ", "bad"]).1]
    decide
  · exact (C1_ollama_error_containment engC1w "" ["ok", " ", "bad"]).2
      "bad" "timeout" (by decide)

/-- C2 counterexample: 5 blank lines followed by 100 non-blank lines
yield 95 records, not 100 — the 100-line cap is applied before blank
lines are skipped, so the blanks consume cap slots. -/
theorem C2_counterexample :
    batchLen (analyze_batch_txt .ollama engBlank "" linesC2) = some 95 ∧
    batchLen (analyze_batch_txt .ollama engBlank "" linesC2) ≠ some 100 := by
  have h95 : batchLen (analyze_batch_txt .ollama engBlank "" linesC2) = some 95 := by
    simp only [analyze_batch_txt, batchLoop_ollama, batchLen, List.length_map]
    decide
  exact ⟨h95, by rw [h95]; decide⟩

/-- C2 amended: blank/whitespace-only lines are skipped only after the
100-line truncation, so the record count is the number of non-blank
lines among the first 100 input lines (on the total Ollama path). -/
theorem C2_blanks_consume_cap (eng : Engines) (custom_labels : String)
    (lines : List String) :
    batchLen (analyze_batch_txt .ollama eng custom_labels lines) =
      some ((lines.take 100).filter fun l => pyStrip l ≠ "").length := by
  simp only [analyze_batch_txt, batchLoop_ollama, batchLen, List.length_map,
    readTxtItems, List.filter_map]
  have hpt : ∀ x ∈ lines.take 100,
      ((fun t => decide (pyStrip t ≠ "")) ∘ pyStrip) x =
        decide (pyStrip x ≠ "") := by
    intro x _
    simp only [Function.comp_apply, decide_eq_decide]
    exact not_congr (pyStrip_strip_empty_iff x)
  rw [List.filter_congr hpt]

/-- C4: every batch run returns at most 100 records (TXT and CSV
branches, every backend kind), and 250 non-blank input lines on the
total Ollama path yield exactly 100 records, the stripped first 100
lines in original input order. -/
theorem C4_batch_cap :
    (∀ mt eng custom_labels lines rows,
      analyze_batch_txt mt eng custom_labels lines = .ok rows →
        rows.length ≤ 100) ∧
    (∀ mt eng custom_labels col rows,
      analyze_batch_csv mt eng custom_labels col = .ok rows →
        rows.length ≤ 100) ∧
    (∀ eng custom_labels lines, lines.length = 250 →
      (∀ l ∈ lines, pyStrip l ≠ "") →
      batchKeywords (analyze_batch_txt .ollama eng custom_labels lines) =
        some ((lines.take 100).map pyStrip) ∧
      batchLen (analyze_batch_txt .ollama eng custom_labels lines) = some 100) := by
  refine ⟨?_, ?_, ?_⟩
  · intro mt eng cl lines rows h
    have := batchLoop_length_le mt eng (parseLabels cl) (readTxtItems lines) rows h
    calc rows.length ≤ (readTxtItems lines).length := this
      _ ≤ 100 := by simp [readTxtItems, List.length_take]
  · intro mt eng cl col rows h
    have := batchLoop_length_le mt eng (parseLabels cl) (readCsvItems col) rows h
    calc rows.length ≤ (readCsvItems col).length := this
      _ ≤ 100 := by simp [readCsvItems, List.length_take]
  · intro eng cl lines hlen hall
    have hfil : ((readTxtItems lines).filter fun t => pyStrip t ≠ "") =
        readTxtItems lines := by
      rw [List.filter_eq_self]
      intro a ha
      simp only [readTxtItems, List.mem_map] at ha
      obtain ⟨l, hl, rfl⟩ := ha
      have hne : pyStrip l ≠ "" := hall l (List.mem_of_mem_take hl)
      simpa [decide_eq_true_eq] using
        fun h0 => hne ((pyStrip_strip_empty_iff l).mp h0)
    have hrun := batchLoop_ollama eng (parseLabels cl) (readTxtItems lines)
    rw [hfil] at hrun
    have hkw : ((readTxtItems lines).map (ollamaRow eng (parseLabels cl))).map
        CsvRow.keyword = readTxtItems lines := by
      rw [List.map_map]
      exact List.map_id _
    constructor
    · show batchKeywords
          (batchLoop .ollama eng (parseLabels cl) (readTxtItems lines)) = _
      rw [hrun]
      simp only [batchKeywords]
      rw [hkw]
      rfl
    · show batchLen
          (batchLoop .ollama eng (parseLabels cl) (readTxtItems lines)) = some 100
      rw [hrun]
      simp only [batchLen, List.length_map, readTxtItems, List.length_take, hlen]
      decide

/-- C4 witness: a singleton batch is under the cap, and the concrete
250-line input yields exactly 100 records. -/
theorem C4_witness :
    ([(⟨"kw", "Commercial", pyRound3 1, [("Commercial", pyRound3 1)]⟩ : CsvRow)]).length
      ≤ 100 ∧
    batchLen (analyze_batch_txt .ollama engBlank "" lines250) = some 100 :=
  ⟨C4_batch_cap.1 .ollama engBlank "" ["kw"] _ rfl,
   (C4_batch_cap.2.2 engBlank "" lines250 (by decide) (by decide)).2⟩

/-- C8: on the zero-shot (LabelSet) path, when the engine returns
scores for exactly the supplied candidate labels (a permutation of
them, one score each), the key set of the per-row `score_<label>`
mapping equals the candidate label set. -/
theorem C8_scores_keys (text : String) (labels : List String) (r : ZSOut)
    (hne : labels ≠ []) (hperm : r.labels.Perm labels)
    (hlen : r.scores.length = r.labels.length) :
    rowKeys (classifyItem .zeroShot (mkZsEngines r) labels text) =
      some labels.toFinset := by
  have hlne : r.labels ≠ [] := by
    intro h0
    exact hne (List.Perm.eq_nil (by simpa [h0] using hperm.symm))
  cases hl : r.labels with
  | nil => exact absurd hl hlne
  | cons bl ls =>
      cases hs : r.scores with
      | nil => rw [hl, hs] at hlen; simp at hlen
      | cons bs ss =>
          rw [hl, hs] at hlen
          have hstep : classifyItem .zeroShot (mkZsEngines r) labels text =
              .ok ⟨text, bl, pyRound3 bs,
                ((bl :: ls).zip (bs :: ss)).map fun p => (p.1, pyRound3 p.2)⟩ := by
            simp [classifyItem, mkZsEngines, hl, hs]
          rw [hstep]
          simp only [rowKeys, Option.some.injEq]
          have hkeys : ((((bl :: ls).zip (bs :: ss)).map
              fun p => (p.1, pyRound3 p.2)).map Prod.fst) = bl :: ls := by
            rw [List.map_map]
            exact List.map_fst_zip _ _ hlen.ge
          rw [hkeys]
          exact List.toFinset_eq_of_perm _ _ (hl ▸ hperm)

/-- C8 witness: engine answer scoring ["B", "A"] against candidates
["A", "B"] produces exactly the candidate key set. -/
theorem C8_witness :
    rowKeys (classifyItem .zeroShot (mkZsEngines ⟨["B", "A"], [1/2, 1/4]⟩)
        ["A", "B"] "t") = some (["A", "B"] : List String).toFinset :=
  C8_scores_keys "t" ["A", "B"] ⟨["B", "A"], [1/2, 1/4]⟩
    (by decide) (by decide) (by decide)

lemma digitChar_inj_lt :
    ∀ a, a < 10 → ∀ b, b < 10 → Nat.digitChar a = Nat.digitChar b → a = b := by
  decide

lemma map_digitChar_inj : ∀ (l1 l2 : List ℕ), (∀ x ∈ l1, x < 10) →
    (∀ x ∈ l2, x < 10) → l1.map Nat.digitChar = l2.map Nat.digitChar → l1 = l2
  | [], [] => by simp
  | [], _ :: _ => by simp
  | _ :: _, [] => by simp
  | a :: l1, b :: l2 => by
      intro h1 h2 h
      simp only [List.map_cons, List.cons.injEq] at h
      have ha : a = b :=
        digitChar_inj_lt a (h1 a (by simp)) b (h2 b (by simp)) h.1
      have hrest := map_digitChar_inj l1 l2
        (fun x hx => h1 x (by simp [hx])) (fun x hx => h2 x (by simp [hx])) h.2
      simp [ha, hrest]

lemma natDecimalChars_inj {m n : ℕ}
    (h : natDecimalChars m = natDecimalChars n) : m = n := by
  unfold natDecimalChars at h
  by_cases hm : m = 0 <;> by_cases hn : n = 0
  · exact hm.trans hn.symm
  · exfalso
    rw [if_pos hm, if_neg hn] at h
    have h' : (Nat.digits 10 n).map Nat.digitChar = ['0'] := by
      have h2 := congrArg List.reverse h
      simpa using h2.symm
    have hd : Nat.digits 10 n = [0] :=
      map_digitChar_inj _ [0]
        (fun x hx => Nat.digits_lt_base (by norm_num) hx) (by simp)
        (by simpa using h')
    have h3 := congrArg (Nat.ofDigits 10) hd
    rw [Nat.ofDigits_digits] at h3
    simp [Nat.ofDigits] at h3
    exact hn h3
  · exfalso
    rw [if_neg hm, if_pos hn] at h
    have h' : (Nat.digits 10 m).map Nat.digitChar = ['0'] := by
      have h2 := congrArg List.reverse h
      simpa using h2
    have hd : Nat.digits 10 m = [0] :=
      map_digitChar_inj _ [0]
        (fun x hx => Nat.digits_lt_base (by norm_num) hx) (by simp)
        (by simpa using h')
    have h3 := congrArg (Nat.ofDigits 10) hd
    rw [Nat.ofDigits_digits] at h3
    simp [Nat.ofDigits] at h3
    exact hm h3
  · rw [if_neg hm, if_neg hn] at h
    have h2 := List.reverse_injective h
    have hd := map_digitChar_inj _ _
      (fun x hx => Nat.digits_lt_base (by norm_num) hx)
      (fun x hx => Nat.digits_lt_base (by norm_num) hx) h2
    have h3 := congrArg (Nat.ofDigits 10) hd
    simpa [Nat.ofDigits_digits] using h3

/-- C7 amended: the destination path is injective in the integer
timestamp — two export calls observing distinct seconds write distinct
files; only calls within the same second collide. -/
theorem C7_path_unique_per_second (c1 c2 : ExportCall)
    (h : c1.timestamp ≠ c2.timestamp) : csvPathOf c1 ≠ csvPathOf c2 := by
  intro he
  apply h
  apply natDecimalChars_inj
  have hd : ("data/ai_results_".data ++ natDecimalChars c1.timestamp) ++
        ".csv".data =
      ("data/ai_results_".data ++ natDecimalChars c2.timestamp) ++
        ".csv".data :=
    congrArg String.data he
  exact List.append_cancel_left (List.append_cancel_right hd)

/-- C7 witness: calls at seconds 1 and 2 write different files. -/
theorem C7_witness :
    csvPathOf ⟨0, 1⟩ ≠ csvPathOf ⟨1, 2⟩ :=
  C7_path_unique_per_second _ _ (by decide)

end KeywordNinja
